import Mathlib

/-!
Verification of the pipe node agent (pipe.py): heartbeat delivery with bounded
retry, concurrent node probing, per-node result reporting, and the two-timer
scheduler loop.  Network effects are modelled by oracles: a function from the
attempt index to the outcome the network would give that attempt.
-/

namespace Pipe

/-- HEARTBEAT_INTERVAL from pipe.py: seconds between successful heartbeats. -/
def HEARTBEAT_INTERVAL : Nat := 300

/-- TEST_INTERVAL from pipe.py: seconds between node-test cycles. -/
def TEST_INTERVAL : Nat := 600

/-- RETRY_DELAY from pipe.py: seconds before a retry. -/
def RETRY_DELAY : Nat := 5

/-- MAX_RETRIES from pipe.py: bound on heartbeat POST attempts. -/
def MAX_RETRIES : Nat := 3

/-- Outcome of one HTTP request: a response with a status code, or an
exception (timeout, connection error, ...), as the except-blocks in pipe.py
treat them. -/
inductive HttpOutcome where
  | status (code : Nat)
  | exn
deriving DecidableEq, Repr

/-- Outcome of the single GET to the ipify endpoint inside get_ip: a response
carries its status code and the value data.get of the key ip (absent when the
JSON body has no such key). -/
inductive IpResponse where
  | response (code : Nat) (body_ip : Option String)
  | exn
deriving DecidableEq, Repr

/-- get_ip from pipe.py lines 47-58: one GET, 200 yields the ip field of the
body, any other status or an exception yields None. -/
def get_ip : IpResponse → Option String
  | IpResponse.response code body_ip => if code = 200 then body_ip else none
  | IpResponse.exn => none

/-- The retry loop of send_heartbeat, pipe.py lines 74-95.  fuel is the number
of loop iterations left (MAX_RETRIES - retries); attempt counts the POST
attempts already made, so the oracle post gives attempt k its outcome.
Returns the boolean result together with the total number of POST attempts:
status 201 returns True at once, status 429 returns False at once, any other
status or an exception consumes one retry. -/
def heartbeat_loop (post : Nat → HttpOutcome) : Nat → Nat → Bool × Nat
  | 0, attempt => (false, attempt)
  | fuel + 1, attempt =>
    match post attempt with
    | HttpOutcome.status code =>
      if code = 201 then (true, attempt + 1)
      else if code = 429 then (false, attempt + 1)
      else heartbeat_loop post fuel (attempt + 1)
    | HttpOutcome.exn => heartbeat_loop post fuel (attempt + 1)

/-- send_heartbeat from pipe.py lines 61-95: resolve the IP first; a falsy IP
(None or the empty string) aborts with False before any POST; otherwise run
the bounded retry loop.  The pair is (returned boolean, POST attempts made). -/
def send_heartbeat (ipr : IpResponse) (post : Nat → HttpOutcome) : Bool × Nat :=
  match get_ip ipr with
  | none => (false, 0)
  | some ip => if ip = "" then (false, 0) else heartbeat_loop post MAX_RETRIES 0

/-- An outcome that the retry loop retries past: neither the 201 success
branch nor the 429 short-circuit. -/
def retryable : HttpOutcome → Bool
  | HttpOutcome.status code =>
    if code = 201 then false else if code = 429 then false else true
  | HttpOutcome.exn => true

lemma heartbeat_loop_attempts_le (post : Nat → HttpOutcome) :
    ∀ fuel attempt, (heartbeat_loop post fuel attempt).2 ≤ attempt + fuel := by
  intro fuel
  induction fuel with
  | zero => intro attempt; simp [heartbeat_loop]
  | succ f ih =>
    intro attempt
    show (heartbeat_loop post (f + 1) attempt).2 ≤ attempt + (f + 1)
    rw [heartbeat_loop]
    cases h : post attempt with
    | status code =>
      by_cases h201 : code = 201
      · simp [h201]
      · by_cases h429 : code = 429
        · simp [h201, h429]
        · simp only [h201, h429, if_false]
          have := ih (attempt + 1)
          omega
    | exn =>
      have := ih (attempt + 1)
      simp only []
      omega

lemma heartbeat_loop_hits_201 (post : Nat → HttpOutcome) :
    ∀ fuel attempt k, k < fuel →
      (∀ j, j < k → retryable (post (attempt + j)) = true) →
      post (attempt + k) = HttpOutcome.status 201 →
      heartbeat_loop post fuel attempt = (true, attempt + k + 1) := by
  intro fuel
  induction fuel with
  | zero => intro attempt k hk; omega
  | succ f ih =>
    intro attempt k hk hbefore h201
    rw [heartbeat_loop]
    cases k with
    | zero =>
      have : post attempt = HttpOutcome.status 201 := by simpa using h201
      rw [this]
      simp
    | succ k' =>
      have h0 : retryable (post attempt) = true := by
        have := hbefore 0 (Nat.succ_pos k')
        simpa using this
      have hrec : heartbeat_loop post f (attempt + 1) = (true, attempt + 1 + k' + 1) := by
        apply ih (attempt + 1) k' (by omega)
        · intro j hj
          have := hbefore (j + 1) (by omega)
          have harith : attempt + (j + 1) = attempt + 1 + j := by omega
          rwa [harith] at this
        · have harith : attempt + (k' + 1) = attempt + 1 + k' := by omega
          rwa [harith] at h201
      cases hpa : post attempt with
      | status code =>
        rw [hpa] at h0
        by_cases h201c : code = 201
        · simp [retryable, h201c] at h0
        · by_cases h429c : code = 429
          · simp [retryable, h201c, h429c] at h0
          · simp only [h201c, h429c, if_false]
            rw [hrec]
            have : attempt + 1 + k' + 1 = attempt + (k' + 1) + 1 := by omega
            rw [this]
      | exn =>
        rw [hrec]
        have : attempt + 1 + k' + 1 = attempt + (k' + 1) + 1 := by omega
        rw [this]

lemma send_heartbeat_valid_ip (ip : String) (post : Nat → HttpOutcome) (hip : ip ≠ "") :
    send_heartbeat (IpResponse.response 200 (some ip)) post =
      heartbeat_loop post MAX_RETRIES 0 := by
  unfold send_heartbeat
  simp only [show get_ip (IpResponse.response 200 (some ip)) = some ip from rfl]
  rw [if_neg hip]

/-- C5: for every IP-resolution outcome and every POST oracle, send_heartbeat
makes at most MAX_RETRIES network attempts to the heartbeat endpoint. -/
theorem c5_heartbeat_attempts_bounded (ipr : IpResponse) (post : Nat → HttpOutcome) :
    (send_heartbeat ipr post).2 ≤ MAX_RETRIES := by
  unfold send_heartbeat
  cases h : get_ip ipr with
  | none => simp [MAX_RETRIES]
  | some ip =>
    by_cases hip : ip = ""
    · simp [hip, MAX_RETRIES]
    · simp only [hip, if_false]
      have := heartbeat_loop_attempts_le post MAX_RETRIES 0
      omega

/-- C6: when the heartbeat endpoint answers HTTP 429 on the first attempt,
send_heartbeat returns false with exactly one POST attempt made: zero
retries. -/
theorem c6_rate_limit_short_circuit (ip : String) (post : Nat → HttpOutcome)
    (hip : ip ≠ "") (h429 : post 0 = HttpOutcome.status 429) :
    send_heartbeat (IpResponse.response 200 (some ip)) post = (false, 1) := by
  rw [send_heartbeat_valid_ip ip post hip]
  show heartbeat_loop post (2 + 1) 0 = (false, 1)
  rw [heartbeat_loop, h429]
  norm_num

/-- C6 witness at a concrete token-independent input: the oracle answers 429
to every attempt. -/
theorem c6_witness :
    send_heartbeat (IpResponse.response 200 (some "1.2.3.4"))
      (fun _ => HttpOutcome.status 429) = (false, 1) :=
  c6_rate_limit_short_circuit "1.2.3.4" (fun _ => HttpOutcome.status 429)
    (by decide) rfl

/-- C9: when IP resolution yields no IP, send_heartbeat returns false with
zero POST attempts: the retry budget is untouched. -/
theorem c9_no_ip_no_post (ipr : IpResponse) (post : Nat → HttpOutcome)
    (h : get_ip ipr = none) :
    send_heartbeat ipr post = (false, 0) := by
  unfold send_heartbeat
  rw [h]

/-- C9 witness: the ipify GET raises, so get_ip is None, and send_heartbeat
makes no POST even though the oracle would answer 201. -/
theorem c9_witness :
    get_ip IpResponse.exn = none ∧
      send_heartbeat IpResponse.exn (fun _ => HttpOutcome.status 201) = (false, 0) :=
  ⟨rfl, c9_no_ip_no_post IpResponse.exn (fun _ => HttpOutcome.status 201) rfl⟩

/-- C1 counterexample: the heartbeat endpoint answers HTTP 200 to every
attempt, yet send_heartbeat does not stop at the first attempt and does not
return true: it retries the full budget and returns false after 3 attempts.
The claim says a 200 response makes it return true with no further
attempts. -/
theorem c1_counterexample :
    send_heartbeat (IpResponse.response 200 (some "1.2.3.4"))
      (fun _ => HttpOutcome.status 200) = (false, 3) := by
  rfl

/-- C1 amended: send_heartbeat returns true as soon as any attempt answers
HTTP 201 (only 201, not 200), making no further attempts: if the first k
attempts draw retryable outcomes (neither 201 nor 429) and attempt k answers
201 with k within the retry budget, the call returns true after exactly k+1
POST attempts. -/
theorem c1_success_stops_at_201 (ip : String) (post : Nat → HttpOutcome) (k : Nat)
    (hip : ip ≠ "") (hk : k < MAX_RETRIES)
    (hbefore : ∀ j, j < k → retryable (post j) = true)
    (h201 : post k = HttpOutcome.status 201) :
    send_heartbeat (IpResponse.response 200 (some ip)) post = (true, k + 1) := by
  rw [send_heartbeat_valid_ip ip post hip]
  have := heartbeat_loop_hits_201 post MAX_RETRIES 0 k hk
    (by intro j hj; simpa using hbefore j hj) (by simpa using h201)
  simpa using this

/-- C1 amended, witness: attempt 0 answers 500, attempt 1 answers 201, so the
call succeeds with exactly 2 POST attempts. -/
theorem c1_witness :
    send_heartbeat (IpResponse.response 200 (some "1.2.3.4"))
      (fun n => if n = 0 then HttpOutcome.status 500 else HttpOutcome.status 201) = (true, 2) :=
  c1_success_stops_at_201 "1.2.3.4"
    (fun n => if n = 0 then HttpOutcome.status 500 else HttpOutcome.status 201) 1
    (by decide) (by decide) (by decide) rfl

/-- A node descriptor as served by the nodes endpoint: the two keys
test_single_node reads. -/
structure NodeDescriptor where
  node_id : String
  ip : String
deriving DecidableEq, Repr

/-- Outcome of the direct GET a single probe issues: a response received
within the timeout, carrying its status code and the measured elapsed wall
clock in milliseconds, or one of the two exceptions the probe catches. -/
inductive ProbeOutcome where
  | response (code : Nat) (elapsed_ms : Int)
  | timeout
  | connectError
deriving DecidableEq, Repr

/-- A Python value produced for a probe result.  test_single_node returns a
4-tuple; report_all_node_results subscripts its input with string keys, which
only a mapping supports.  The dict constructor holds the same four fields as
a mapping under the keys node_id, ip, latency, status. -/
inductive ResultVal where
  | tuple (node_id ip : String) (latency : Int) (status : String)
  | dict (node_id ip : String) (latency : Int) (status : String)
deriving DecidableEq, Repr

/-- test_single_node from pipe.py lines 120-131: on a response, status is
在线 (online) exactly for code 200 and the latency field keeps the measured
value only then, otherwise -1; a timeout or connection error yields the
offline tuple.  The returned value is a Python tuple. -/
def test_single_node (node : NodeDescriptor) (o : ProbeOutcome) : ResultVal :=
  match o with
  | ProbeOutcome.response code elapsed_ms =>
    let status := if code = 200 then "在线" else "离线"
    let latency_value := if status = "在线" then elapsed_ms else -1
    ResultVal.tuple node.node_id node.ip latency_value status
  | ProbeOutcome.timeout => ResultVal.tuple node.node_id node.ip (-1) "离线"
  | ProbeOutcome.connectError => ResultVal.tuple node.node_id node.ip (-1) "离线"

/-- The gather in test_all_nodes, pipe.py lines 133-135: one task per node in
list order; the probe oracle gives task i its network outcome. -/
def test_all_nodes_from (probe : Nat → ProbeOutcome) :
    Nat → List NodeDescriptor → List ResultVal
  | _, [] => []
  | i, node :: rest =>
    test_single_node node (probe i) :: test_all_nodes_from probe (i + 1) rest

/-- test_all_nodes from pipe.py lines 118-135: probe every node concurrently
and collect one result per node. -/
def test_all_nodes (probe : Nat → ProbeOutcome) (nodes : List NodeDescriptor) :
    List ResultVal :=
  test_all_nodes_from probe 0 nodes

lemma test_all_nodes_from_length (probe : Nat → ProbeOutcome) :
    ∀ (nodes : List NodeDescriptor) (i : Nat),
      (test_all_nodes_from probe i nodes).length = nodes.length := by
  intro nodes
  induction nodes with
  | nil => intro i; rfl
  | cons node rest ih =>
    intro i
    simp [test_all_nodes_from, ih (i + 1)]

lemma test_all_nodes_from_get? (probe : Nat → ProbeOutcome) :
    ∀ (nodes : List NodeDescriptor) (i k : Nat),
      (test_all_nodes_from probe i nodes).get? k =
        (nodes.get? k).map (fun n => test_single_node n (probe (i + k))) := by
  intro nodes
  induction nodes with
  | nil => intro i k; rfl
  | cons node rest ih =>
    intro i k
    cases k with
    | zero => rfl
    | succ k' =>
      show (test_all_nodes_from probe (i + 1) rest).get? k' = _
      rw [ih (i + 1) k']
      have : i + 1 + k' = i + (k' + 1) := by omega
      rw [this]
      rfl

/-- C3: a probe that times out or fails to connect yields the offline result
with latency -1, and a probe answered with HTTP 200 within the timeout yields
the online result carrying the measured latency L with L nonnegative (the
event-loop clock is monotone, so the measured elapsed time is nonnegative). -/
theorem c3_probe_result_shape (node : NodeDescriptor) (L : Int) (hL : 0 ≤ L) :
    test_single_node node ProbeOutcome.timeout =
        ResultVal.tuple node.node_id node.ip (-1) "离线" ∧
      test_single_node node ProbeOutcome.connectError =
        ResultVal.tuple node.node_id node.ip (-1) "离线" ∧
      test_single_node node (ProbeOutcome.response 200 L) =
        ResultVal.tuple node.node_id node.ip L "在线" ∧
      0 ≤ L :=
  ⟨rfl, rfl, rfl, hL⟩

/-- C3 witness at the spec scenario node n1 with a 120 ms latency. -/
theorem c3_witness :
    test_single_node ⟨"n1", "10.0.0.1"⟩ ProbeOutcome.timeout =
        ResultVal.tuple "n1" "10.0.0.1" (-1) "离线" ∧
      test_single_node ⟨"n1", "10.0.0.1"⟩ ProbeOutcome.connectError =
        ResultVal.tuple "n1" "10.0.0.1" (-1) "离线" ∧
      test_single_node ⟨"n1", "10.0.0.1"⟩ (ProbeOutcome.response 200 120) =
        ResultVal.tuple "n1" "10.0.0.1" 120 "在线" ∧
      (0 : Int) ≤ 120 :=
  c3_probe_result_shape ⟨"n1", "10.0.0.1"⟩ 120 (by decide)

/-- C7: test_all_nodes on the empty list is the empty list; on any list it
returns exactly one result per node whatever the probe outcomes are, and the
result at position k is computed from node k and its own probe outcome alone,
so one probe cannot affect the result of another node. -/
theorem c7_probe_all_cardinality (probe : Nat → ProbeOutcome)
    (nodes : List NodeDescriptor) :
    test_all_nodes probe [] = [] ∧
      (test_all_nodes probe nodes).length = nodes.length ∧
      ∀ k, (test_all_nodes probe nodes).get? k =
        (nodes.get? k).map (fun n => test_single_node n (probe k)) := by
  refine ⟨rfl, test_all_nodes_from_length probe nodes 0, ?_⟩
  intro k
  have := test_all_nodes_from_get? probe nodes 0 k
  simpa using this

/-- The keys of the test_data payload built in report_all_node_results. -/
inductive PyVal where
  | str (s : String)
  | int (i : Int)
deriving DecidableEq, Repr

/-- Subscripting a probe result with a string key, as result of pipe.py line
147 does: a tuple raises TypeError (string keys do not index a tuple); a dict
yields the field stored under the key, or raises KeyError. -/
def getItem : ResultVal → String → Except String PyVal
  | ResultVal.tuple _ _ _ _, _ =>
    Except.error "TypeError: tuple indices must be integers or slices, not str"
  | ResultVal.dict n i l s, key =>
    if key = "node_id" then Except.ok (PyVal.str n)
    else if key = "ip" then Except.ok (PyVal.str i)
    else if key = "latency" then Except.ok (PyVal.int l)
    else if key = "status" then Except.ok (PyVal.str s)
    else Except.error "KeyError"

/-- The test_data dict built at pipe.py lines 146-151 for one result. -/
structure TestData where
  node_id : PyVal
  ip : PyVal
  latency : PyVal
  status : PyVal
deriving DecidableEq, Repr

/-- Building test_data from one result, pipe.py lines 146-151: four string
subscripts, evaluated before the try block around the POST, so any error here
escapes report_all_node_results. -/
def build_test_data (r : ResultVal) : Except String TestData := do
  let n ← getItem r "node_id"
  let i ← getItem r "ip"
  let l ← getItem r "latency"
  let s ← getItem r "status"
  return ⟨n, i, l, s⟩

/-- The loop of report_all_node_results, pipe.py lines 145-166, from POST
index i on.  Each iteration first builds test_data (outside the try block: an
error there aborts the whole call) and then attempts one POST whose outcome,
success, failure status or exception, is logged and swallowed by the try
block, never altering control flow.  Returns the list of attempted POSTs with
their outcomes, and the uncaught error if one aborted the loop. -/
def report_all_node_results_from (post : Nat → HttpOutcome) :
    Nat → List ResultVal → List (TestData × HttpOutcome) × Option String
  | _, [] => ([], none)
  | i, r :: rs =>
    match build_test_data r with
    | Except.error e => ([], some e)
    | Except.ok td =>
      let rest := report_all_node_results_from post (i + 1) rs
      ((td, post i) :: rest.1, rest.2)

/-- report_all_node_results from pipe.py lines 138-166. -/
def report_all_node_results (post : Nat → HttpOutcome) (results : List ResultVal) :
    List (TestData × HttpOutcome) × Option String :=
  report_all_node_results_from post 0 results

/-- C2 as the code behaves at a concrete failing input: with the node list
n1, n2 and both probes timing out, test_all_nodes yields two tuples, and
report_all_node_results on those very results makes zero POST attempts: the
first iteration raises TypeError at the string subscript before its try
block, aborting the batch, so the remaining result is never reported.  The
claim promised one POST per result with failures isolated per node. -/
theorem c2_failing_eval :
    test_all_nodes (fun _ => ProbeOutcome.timeout)
        [⟨"n1", "10.0.0.1"⟩, ⟨"n2", "10.0.0.2"⟩] =
      [ResultVal.tuple "n1" "10.0.0.1" (-1) "离线",
       ResultVal.tuple "n2" "10.0.0.2" (-1) "离线"] ∧
    report_all_node_results (fun _ => HttpOutcome.status 200)
        [ResultVal.tuple "n1" "10.0.0.1" (-1) "离线",
         ResultVal.tuple "n2" "10.0.0.2" (-1) "离线"] =
      ([], some "TypeError: tuple indices must be integers or slices, not str") :=
  ⟨rfl, rfl⟩

/-- Outcome of the single GET to the nodes endpoint in start_testing: a
response with its status code and decoded node list, or an exception. -/
inductive FetchOutcome where
  | response (code : Nat) (nodes : List NodeDescriptor)
  | exn
deriving DecidableEq, Repr

/-- start_testing from pipe.py lines 98-116: one GET for the node list, no
retry; only status 200 proceeds to the test-and-report cycle (whose attempted
POSTs and swallowed error are returned); any other status or an exception
skips the cycle entirely, returning none. -/
def start_testing (fetch : FetchOutcome) (probe : Nat → ProbeOutcome)
    (post : Nat → HttpOutcome) :
    Option (List (TestData × HttpOutcome) × Option String) :=
  match fetch with
  | FetchOutcome.response code nodes =>
    if code = 200 then
      some (report_all_node_results post (test_all_nodes probe nodes))
    else none
  | FetchOutcome.exn => none

/-- The loop state of run_node, pipe.py lines 182-184: the two due-times and
the first-heartbeat flag.  Timestamps are seconds. -/
structure SchedState where
  next_heartbeat_time : Nat
  next_test_time : Nat
  first_heartbeat : Bool
deriving DecidableEq, Repr

/-- One iteration of the while loop of run_node, pipe.py lines 189-210, at
the captured current_time.  heartbeat_sent is the boolean send_heartbeat
returned when the heartbeat timer fired.  The heartbeat branch reschedules to
current_time plus HEARTBEAT_INTERVAL on success and current_time plus
RETRY_DELAY on failure; the test branch reschedules to current_time plus
TEST_INTERVAL unconditionally. -/
def scheduler_tick (current_time : Nat) (heartbeat_sent : Bool) (s : SchedState) :
    SchedState :=
  let s1 :=
    if s.next_heartbeat_time ≤ current_time then
      { s with
        first_heartbeat := false
        next_heartbeat_time :=
          if heartbeat_sent then current_time + HEARTBEAT_INTERVAL
          else current_time + RETRY_DELAY }
    else s
  if s1.next_test_time ≤ current_time then
    { s1 with next_test_time := current_time + TEST_INTERVAL }
  else s1

/-- C4: when the heartbeat timer fires at time T, the next heartbeat due-time
becomes T + HEARTBEAT_INTERVAL if send_heartbeat returned true and
T + RETRY_DELAY if it returned false, whatever the test timer does in the
same tick. -/
theorem c4_heartbeat_reschedule (T : Nat) (s : SchedState) (hb : Bool)
    (hdue : s.next_heartbeat_time ≤ T) :
    (scheduler_tick T hb s).next_heartbeat_time =
      T + (if hb then HEARTBEAT_INTERVAL else RETRY_DELAY) := by
  unfold scheduler_tick
  simp only [if_pos hdue]
  cases hb with
  | false => split <;> rfl
  | true => split <;> rfl

/-- C4 witness: both timers due at 0; a successful heartbeat lands the next
due-time at HEARTBEAT_INTERVAL, and from the succeeding state a failed
heartbeat at time 300 lands it at 305. -/
theorem c4_witness :
    (scheduler_tick 0 true ⟨0, 0, true⟩).next_heartbeat_time =
        0 + (if true then HEARTBEAT_INTERVAL else RETRY_DELAY) ∧
      (scheduler_tick 300 false ⟨300, 600, false⟩).next_heartbeat_time =
        300 + (if false then HEARTBEAT_INTERVAL else RETRY_DELAY) :=
  ⟨c4_heartbeat_reschedule 0 ⟨0, 0, true⟩ true (by decide),
   c4_heartbeat_reschedule 300 ⟨300, 600, false⟩ false (by decide)⟩

/-- C8: when the test timer fires at time T, the next test due-time becomes
T + TEST_INTERVAL whatever the heartbeat outcome was; and a failed node-list
fetch, an exception or any non-200 status, makes start_testing skip the whole
test-and-report cycle with no retry (it is given exactly one fetch outcome and
probes and reports nothing). -/
theorem c8_test_reschedule_unconditional (T : Nat) (s : SchedState) (hb : Bool)
    (hdue : s.next_test_time ≤ T) :
    (scheduler_tick T hb s).next_test_time = T + TEST_INTERVAL ∧
      (∀ probe post, start_testing FetchOutcome.exn probe post = none) ∧
      (∀ code nodes probe post, code ≠ 200 →
        start_testing (FetchOutcome.response code nodes) probe post = none) := by
  refine ⟨?_, fun probe post => rfl, fun code nodes probe post hcode => ?_⟩
  · unfold scheduler_tick
    split
    · simp only [] at hdue ⊢
      rw [if_pos hdue]
    · simp only [] at hdue ⊢
      rw [if_pos hdue]
  · simp only [start_testing]
    rw [if_neg hcode]

/-- C8 witness: the test timer due at time 0 is pushed to TEST_INTERVAL, the
skip conjuncts instantiated at a 500 status fetch. -/
theorem c8_witness :
    (scheduler_tick 0 false ⟨5, 0, false⟩).next_test_time = 0 + TEST_INTERVAL ∧
      (∀ probe post, start_testing FetchOutcome.exn probe post = none) ∧
      (∀ code nodes probe post, code ≠ 200 →
        start_testing (FetchOutcome.response code nodes) probe post = none) :=
  c8_test_reschedule_unconditional 0 ⟨5, 0, false⟩ false (by decide)

/-- The credential record read_pipe_file returns. -/
structure Cred where
  email : String
  token : String
deriving DecidableEq, Repr

/-- Whitespace as Python str.strip removes it: space, tab, newline, carriage
return, vertical tab, form feed. -/
def pySpace (c : Char) : Bool :=
  c = ' ' || c = '\t' || c = '\n' || c = '\r' || c = '\x0b' || c = '\x0c'

/-- Python str.strip with no argument: drop leading and trailing
whitespace. -/
def pyStrip (s : String) : String :=
  String.mk (((s.data.dropWhile pySpace).reverse.dropWhile pySpace).reverse)

/-- Python str.split at a one-character separator, on the character list:
always at least one piece, a piece boundary at every separator
occurrence. -/
def pySplitCh (sep : Char) : List Char → List (List Char)
  | [] => [[]]
  | c :: rest =>
    let r := pySplitCh sep rest
    if c = sep then [] :: r
    else
      match r with
      | h :: t => (c :: h) :: t
      | [] => [[c]]

/-- Python str.split at a one-character separator. -/
def pySplit (sep : Char) (s : String) : List String :=
  (pySplitCh sep s.data).map String.mk

/-- Python str.startswith. -/
def pyStartsWith (s p : String) : Bool :=
  p.data.isPrefixOf s.data

/-- The value extracted from a matched credential line, pipe.py lines 36 and
38: strip the line, split on the colon, take piece 1, strip it.  The fallback
branch is unreachable for a line that starts with email: or token:, which
always splits into at least two pieces. -/
def extract_value (line : String) : String :=
  match pySplit ':' (pyStrip line) with
  | _ :: v :: _ => pyStrip v
  | _ => ""

/-- One iteration of the line loop of read_pipe_file, pipe.py lines 34-38:
a line starting with email: sets the email, else one starting with token:
sets the token, else the line is ignored. -/
def read_cred_step (acc : Option String × Option String) (line : String) :
    Option String × Option String :=
  if pyStartsWith line "email:" then (some (extract_value line), acc.2)
  else if pyStartsWith line "token:" then (acc.1, some (extract_value line))
  else acc

/-- read_pipe_file from pipe.py lines 21-44: a missing file yields None;
otherwise scan the lines, and return None unless both the email and the token
were assigned a non-empty value (Python truthiness of the two variables). -/
def read_pipe_file (pipe_file_present : Bool) (lines : List String) : Option Cred :=
  if pipe_file_present then
    match lines.foldl read_cred_step (none, none) with
    | (some e, some t) => if e = "" || t = "" then none else some ⟨e, t⟩
    | _ => none
  else none

/-- The startup gate of run_node, pipe.py lines 171-174: the scheduler loop
is entered exactly when read_pipe_file returned a credential. -/
def run_starts (pipe_file_present : Bool) (lines : List String) : Bool :=
  (read_pipe_file pipe_file_present lines).isSome

/-- Python truthiness of an optional string: assigned and non-empty. -/
def truthy : Option String → Bool
  | none => false
  | some s => !(s == "")

/-- C10 counterexample: a credential file holding only the line token: abc
supplies the non-empty token abc, yet the run does not start, because
read_pipe_file also demands a non-empty email. -/
theorem c10_counterexample :
    run_starts true ["token: abc"] = false ∧
      extract_value "token: abc" = "abc" := by
  constructor <;> decide

/-- C10 amended: the run starts exactly when the credential file is present
and supplies both a non-empty email and a non-empty token; a missing or empty
email makes the run fail fast even with a valid token. -/
theorem c10_run_gate (pipe_file_present : Bool) (lines : List String) :
    run_starts pipe_file_present lines =
      (pipe_file_present &&
        truthy (lines.foldl read_cred_step (none, none)).1 &&
        truthy (lines.foldl read_cred_step (none, none)).2) := by
  unfold run_starts read_pipe_file
  cases pipe_file_present with
  | false => simp
  | true =>
    simp only [if_pos trivial, Bool.true_and]
    rcases hfold : lines.foldl read_cred_step (none, none) with ⟨e?, t?⟩
    cases e? with
    | none => simp [truthy]
    | some e =>
      cases t? with
      | none => simp [truthy]
      | some t =>
        by_cases he : e = ""
        · simp [truthy, he]
        · by_cases ht : t = ""
          · simp [truthy, he, ht]
          · simp [truthy, he, ht]

end Pipe
